import Mathlib

/-!
Shallow embedding of `sshuttle/methods/tproxy.py` (the tproxy interception
method): the ancillary-data destination decoder (`recv_udp` and its three
strategies), the capability probe (`get_supported_features`), and the
firewall rule-set builder (`setup_firewall` / `restore_firewall`), together
with theorems settling the specification claims about them.

External effects are made explicit: the firewall functions emit the argument
vectors they would pass to the `ipt` helper (one `List String` per
invocation), and the external observations the source makes (rule counts,
rule/chain existence, the distributed lock outcome, the local interface
address, the environment variables) are inputs.
-/

namespace Sshuttle

/-- Address family constant `socket.AF_INET` (Linux value). -/
def AF_INET : Nat := 2

/-- Address family constant `socket.AF_INET6` (Linux value). -/
def AF_INET6 : Nat := 10

/-- Socket-level constant `socket.SOL_IP` (Linux value). -/
def SOL_IP : Nat := 0

/-- Constant `IP_ORIGDSTADDR = 20` from the source. -/
def IP_ORIGDSTADDR : Nat := 20

/-- Constant `SOL_IPV6 = 41` from the source. -/
def SOL_IPV6 : Nat := 41

/-- Constant `IPV6_ORIGDSTADDR = 74` from the source. -/
def IPV6_ORIGDSTADDR : Nat := 74

/-- Reading of one `'=H'` field of `struct.unpack` on a little-endian host:
two bytes combined in host (little-endian) order. -/
def unpackH (b0 b1 : Nat) : Nat := b0 + 256 * b1

/-- Model of `socket.htons` on a little-endian host: byte swap of a 16-bit
value. -/
def htons (x : Nat) : Nat := x % 256 * 256 + x / 256

/-- One ancillary (control) message as delivered by `recvmsg`: the
`(cmsg_level, cmsg_type, cmsg_data)` triple, with the payload as bytes. -/
structure CMsg where
  level : Nat
  type : Nat
  data : List Nat
deriving DecidableEq, Repr

/-- The ancillary scanning loop shared by the `python` and `socket_ext`
variants of `recv_udp` (source lines 53-75 and 84-108): walk the records;
on the first original-destination record, unpack `'=HH'` at offset 0,
convert the port with `htons`, check the embedded family, and slice the
address bytes (offset 4, length 4 for IPv4; offset 8, length 16 for IPv6).
A family other than the expected one raises `Fatal` naming the family,
modelled as `Except.error family`.  No matching record leaves `dstip`
as `None`. -/
def decodeOrigDst : List CMsg → Except Nat (Option (List Nat × Nat))
  | [] => .ok none
  | c :: rest =>
    if c.level = SOL_IP ∧ c.type = IP_ORIGDSTADDR then
      let family := unpackH (c.data.getD 0 0) (c.data.getD 1 0)
      let port := htons (unpackH (c.data.getD 2 0) (c.data.getD 3 0))
      if family = AF_INET then
        .ok (some ((c.data.drop 4).take 4, port))
      else
        .error family
    else if c.level = SOL_IPV6 ∧ c.type = IPV6_ORIGDSTADDR then
      let family := unpackH (c.data.getD 0 0) (c.data.getD 1 0)
      let port := htons (unpackH (c.data.getD 2 0) (c.data.getD 3 0))
      if family = AF_INET6 then
        .ok (some ((c.data.drop 8).take 16, port))
      else
        .error family
    else
      decodeOrigDst rest

/-- Outcome of the startup probe for a `recvmsg` primitive: the module-level
`recvmsg` variable is `"python"`, `"socket_ext"`, or `None`. -/
inductive RecvStrategy
  | python
  | socket_ext
deriving DecidableEq, Repr

/-- A UDP listener socket modelled by what a receive on it would deliver:
the pending datagram payload, the ancillary records, and the source
address (kept opaque as a `Nat`). -/
structure Listener where
  payload : List Nat
  ancdata : List CMsg
  src : Nat
deriving DecidableEq, Repr

/-- Module-level `recv_udp(listener, bufsize)` (source lines 46-114), one
definition per probe outcome.  The `python` variant calls
`listener.recvmsg(4096, ...)` (a fixed request of 4096 bytes, `bufsize`
unused); the `socket_ext` variant requests `bufsize` bytes; the fallback
calls `recvfrom(bufsize)` and always reports the destination absent.
The result is `(srcip, dstip, data)`, and a family mismatch in the
ancillary scan propagates as the `Fatal` error. -/
def recv_udp : Option RecvStrategy → Listener → Nat → Except Nat (Nat × Option (List Nat × Nat) × List Nat)
  | some .python, l, _bufsize =>
    match decodeOrigDst l.ancdata with
    | .error f => .error f
    | .ok dstip => .ok (l.src, dstip, l.payload.take 4096)
  | some .socket_ext, l, bufsize =>
    match decodeOrigDst l.ancdata with
    | .error f => .error f
    | .ok dstip => .ok (l.src, dstip, l.payload.take bufsize)
  | none, l, bufsize => .ok (l.src, none, l.payload.take bufsize)

/-- Capability descriptor `{ipv6, udp, dns}` returned by
`get_supported_features`. -/
structure Features where
  ipv6 : Bool
  udp : Bool
  dns : Bool
deriving DecidableEq, Repr

/-- Method `get_supported_features` (source lines 119-128): take the base
class result, force `ipv6 := true`, and set `udp`/`dns` according to
whether the startup probe found a `recvmsg` primitive. -/
def Method.get_supported_features (recvmsg : Option RecvStrategy) (base : Features) : Features :=
  let result := { base with ipv6 := true }
  if recvmsg.isNone then
    { result with udp := false, dns := false }
  else
    { result with udp := true, dns := true }

/-- Method `recv_udp` wrapper (source lines 133-140): call the module-level
`recv_udp`; if the destination could not be determined, log and return
`None` (the packet is dropped, no error); otherwise pass the triple
through. -/
def Method.recv_udp (strategy : Option RecvStrategy) (l : Listener) (bufsize : Nat) :
    Except Nat (Option (Nat × (List Nat × Nat) × List Nat)) :=
  match Sshuttle.recv_udp strategy l bufsize with
  | .error f => .error f
  | .ok (_srcip, none, _data) => .ok none
  | .ok (srcip, some dstip, data) => .ok (some (srcip, dstip, data))

/-- One invocation of the `ipt`/`ipt_ttl` helpers: the argument vector
passed after the fixed family and table. -/
abbrev Cmd := List String

/-- Chain name `'sshuttle-m-%s' % port`. -/
def mark_chain (port : Nat) : String := "sshuttle-m-" ++ toString port

/-- Chain name `'sshuttle-t-%s' % port`. -/
def tproxy_chain (port : Nat) : String := "sshuttle-t-" ++ toString port

/-- Chain name `'sshuttle-d-%s' % port`. -/
def divert_chain (port : Nat) : String := "sshuttle-d-" ++ toString port

/-- The slice of the kernel mangle-table state that `restore_firewall`
observes and mutates for one listening port: whether `OUTPUT` holds the
jump to the mark chain, whether `PREROUTING` holds the unconditional jump
to the tproxy chain, whether it holds the statistic-match variant (with
its `--every` argument), and whether each of the three per-port chains
exists. -/
structure RuleTable where
  outputMark : Bool
  preroutingPlain : Bool
  preroutingStat : Option Nat
  markExists : Bool
  tproxyExists : Bool
  divertExists : Bool
deriving DecidableEq, Repr

/-- A rule table on which nothing was ever set up. -/
def cleanTable : RuleTable := ⟨false, false, none, false, false, false⟩

/-- Core of `restore_firewall` (source lines 334-353), after the
address-family guard: each deletion is guarded by an `ipt_rule_exists` /
`ipt_chain_exists` check, the `PREROUTING` deletion reproduces the
statistic-match arguments when the module-level `iptables_lb_every` is
set, and each existing chain is flushed then deleted.

Modelled from the spec: the `ipt`, `ipt_rule_exists` and
`ipt_chain_exists` helpers live in `sshuttle/linux.py`, which is not part
of this source tree.  Per the spec all teardown mutations are individually
idempotent, so a delete whose argument vector matches no present rule
leaves the table unchanged; `ipt_rule_exists chain target` answers whether
`chain` holds a rule jumping to `target`, and the state transition of each
issued command is applied to the corresponding `RuleTable` field. -/
def restoreCore (lbEvery : Option Nat) (port : Nat) (s : RuleTable) : RuleTable × List Cmd :=
  let mark := mark_chain port
  let tproxy := tproxy_chain port
  let divert := divert_chain port
  let (s, cs1) :=
    if s.outputMark then
      ({ s with outputMark := false }, [["-D", "OUTPUT", "-j", mark]])
    else (s, [])
  let (s, cs2) :=
    if s.preroutingPlain || s.preroutingStat.isSome then
      match lbEvery with
      | none =>
          ({ s with preroutingPlain := false }, [["-D", "PREROUTING", "-j", tproxy]])
      | some n =>
          ({ s with preroutingStat :=
              if s.preroutingStat = some n then none else s.preroutingStat },
           [["-D", "PREROUTING", "-m", "statistic", "--mode", "nth", "--every",
             toString n, "--packet", "0", "-j", tproxy]])
    else (s, [])
  let (s, cs3) :=
    if s.markExists then
      ({ s with markExists := false }, [["-F", mark], ["-X", mark]])
    else (s, [])
  let (s, cs4) :=
    if s.tproxyExists then
      ({ s with tproxyExists := false }, [["-F", tproxy], ["-X", tproxy]])
    else (s, [])
  let (s, cs5) :=
    if s.divertExists then
      ({ s with divertExists := false }, [["-F", divert], ["-X", divert]])
    else (s, [])
  (s, cs1 ++ cs2 ++ cs3 ++ cs4 ++ cs5)

/-- Method `restore_firewall` (source lines 316-353): reject an address
family other than `AF_INET`/`AF_INET6` (the raised `Exception` names the
family, modelled as the error value), otherwise run the guarded teardown
sequence. -/
def restore_firewall (family : Nat) (lbEvery : Option Nat) (port : Nat) (s : RuleTable) :
    Except Nat (RuleTable × List Cmd) :=
  if family = AF_INET ∨ family = AF_INET6 then
    .ok (restoreCore lbEvery port s)
  else
    .error family

/-- One entry of the subnet list: the
`(family, swidth, sexclude, snet, fport, lport)` tuple unpacked by the
per-subnet loop.  Python reads `fport` as falsy when the subnet carries no
port range, modelled as `fport = 0`. -/
structure Subnet where
  sfamily : Nat
  swidth : Nat
  sexclude : Bool
  snet : String
  fport : Nat
  lport : Nat
deriving DecidableEq, Repr

/-- Helper `_ipt_proto_ports(proto, fport, lport)` (source lines 190-192):
append `--dport fport:lport` when a first port is present. -/
def ipt_proto_ports (proto : List String) (fport lport : Nat) : List String :=
  if fport ≠ 0 then proto ++ ["--dport", toString fport ++ ":" ++ toString lport] else proto

/-- Rules emitted for one subnet by the per-subnet loop of `setup_firewall`
(source lines 268-314): the TCP pair (RETURN/RETURN when excluded, MARK
and TPROXY when included), then, if UDP is enabled, the UDP pair.  The
included UDP mark rule is written `'-m', 'udp', '-p', 'udp'` verbatim in
the source, without the computed `udp_ports`. -/
def subnetRules (port : Nat) (udp : Bool) (s : Subnet) : List Cmd :=
  let mark := mark_chain port
  let tproxy := tproxy_chain port
  let dest := s.snet ++ "/" ++ toString s.swidth
  let tcp_ports := ipt_proto_ports ["-p", "tcp"] s.fport s.lport
  (if s.sexclude then
    [["-A", mark, "-j", "RETURN", "--dest", dest, "-m", "tcp"] ++ tcp_ports,
     ["-A", tproxy, "-j", "RETURN", "--dest", dest, "-m", "tcp"] ++ tcp_ports]
  else
    [["-A", mark, "-j", "MARK", "--set-mark", "1", "--dest", dest, "-m", "tcp"] ++ tcp_ports,
     ["-A", tproxy, "-j", "TPROXY", "--tproxy-mark", "0x1/0x1", "--dest", dest, "-m", "tcp"]
       ++ (tcp_ports ++ ["--on-port", toString port])])
  ++
  (if udp then
    let udp_ports := ipt_proto_ports ["-p", "udp"] s.fport s.lport
    if s.sexclude then
      [["-A", mark, "-j", "RETURN", "--dest", dest, "-m", "udp"] ++ udp_ports,
       ["-A", tproxy, "-j", "RETURN", "--dest", dest, "-m", "udp"] ++ udp_ports]
    else
      [["-A", mark, "-j", "MARK", "--set-mark", "1", "--dest", dest, "-m", "udp", "-p", "udp"],
       ["-A", tproxy, "-j", "TPROXY", "--tproxy-mark", "0x1/0x1", "--dest", dest, "-m", "udp"]
         ++ (udp_ports ++ ["--on-port", toString port])]
  else [])

/-- Modelled from the spec: `subnet_weight` lives in `sshuttle/firewall.py`,
which is not part of this source tree.  Per the spec the weight favors the
exclusion flag, then the narrower (more specific) prefix. -/
def subnet_weight (s : Subnet) : Nat × Nat :=
  ((if s.sexclude then 1 else 0), s.swidth)

/-- Comparison used to sort subnets by descending weight, as
`sorted(subnets, key=subnet_weight, reverse=True)` does: `a` may precede
`b` when the weight of `b` is at most (lexicographically) the weight of
`a`. -/
def weight_ge (a b : Subnet) : Prop :=
  (subnet_weight b).1 < (subnet_weight a).1 ∨
    ((subnet_weight b).1 = (subnet_weight a).1 ∧ (subnet_weight b).2 ≤ (subnet_weight a).2)

instance : DecidableRel weight_ge := fun a b => by
  unfold weight_ge
  exact inferInstance

instance : IsTotal Subnet weight_ge :=
  ⟨by intro a b; unfold weight_ge; omega⟩

instance : IsTrans Subnet weight_ge :=
  ⟨by intro a b c; unfold weight_ge; omega⟩

/-- Model of Python's stable `sorted(subnets, key=subnet_weight,
reverse=True)`: a stable sort placing greater-weight subnets first. -/
def sortedSubnets (l : List Subnet) : List Subnet :=
  List.insertionSort weight_ge l

/-- Kind of abort raised by `setup_firewall`: the unsupported-family
`Exception`, the `Fatal` for the missing Redis connection parameters, and
the `Exception` raised when the coordinator lock is not acquired. -/
inductive SetupError
  | badFamily (family : Nat)
  | redisMissing
  | lockFailed
deriving DecidableEq, Repr

/-- External observations consumed by one `setup_firewall` call: the rule
table visible to the teardown step, the current module-level
`iptables_lb_every`, the `REDIS_HOST`/`REDIS_PORT` environment values,
whether the coordinator lock acquisition succeeds, the
`ipt_rule_count(family, 'mangle', 'PREROUTING')` observation made under
the lock, and the `eth0` address from `netifaces`. -/
structure SetupEnv where
  table : RuleTable
  lbEvery : Option Nat
  redisHost : Option String
  redisPort : Option String
  lockAcquired : Bool
  ruleCount : Nat
  myip : String

/-- Method `setup_firewall` (source lines 175-314) as the ordered sequence
of `ipt` argument vectors it issues, together with the abort (if any) and
the final value of the module-level `iptables_lb_every`.  The order
follows the source: family guard; unconditional `restore_firewall`; the
six chain create/flush commands; the Redis parameter check; the locked
entry-point insertion into `PREROUTING` (unconditional jump when the
observed rule count is zero, statistic-match with `--every` one greater
than the count otherwise); the `OUTPUT` insertion and fixed
divert/tproxy/mark rules; the UDP socket-match rule; the per-nameserver
rules; and the per-subnet rules over the subnets sorted by descending
weight. -/
def setup_firewall (env : SetupEnv) (port dnsport : Nat) (nslist : List (Nat × String))
    (family : Nat) (subnets : List Subnet) (udp : Bool) :
    List Cmd × Option SetupError × Option Nat :=
  if family = AF_INET ∨ family = AF_INET6 then
    let mark := mark_chain port
    let tproxy := tproxy_chain port
    let divert := divert_chain port
    let restoreCmds := (restoreCore env.lbEvery port env.table).2
    let chainCmds : List Cmd :=
      [["-N", mark], ["-F", mark], ["-N", divert], ["-F", divert], ["-N", tproxy], ["-F", tproxy]]
    if env.redisHost.isNone ∨ env.redisPort.isNone then
      (restoreCmds ++ chainCmds, some .redisMissing, env.lbEvery)
    else if env.lockAcquired then
      let entry : Cmd :=
        if env.ruleCount = 0 then
          ["-I", "PREROUTING", "1", "-j", tproxy]
        else
          ["-I", "PREROUTING", "1", "-m", "statistic", "--mode", "nth",
           "--every", toString (env.ruleCount + 1), "--packet", "0", "-j", tproxy]
      let lb : Option Nat :=
        if env.ruleCount = 0 then env.lbEvery else some (env.ruleCount + 1)
      let fixedCmds : List Cmd :=
        [["-I", "OUTPUT", "1", "-j", mark],
         ["-A", divert, "-j", "MARK", "--set-mark", "1"],
         ["-A", divert, "-j", "ACCEPT"],
         ["-A", tproxy, "-j", "RETURN", "--src", "127.0.0.1/32", "--dest", "127.0.0.1/32"],
         ["-A", tproxy, "-m", "socket", "-j", divert, "-m", "tcp", "-p", "tcp"],
         ["-A", mark, "-j", "RETURN", "--src", env.myip ++ "/32", "!", "--dest", "1.0.0.0"],
         ["-A", mark, "-j", "RETURN", "--dest", env.myip ++ "/32"]]
      let udpCmds : List Cmd :=
        if udp then [["-A", tproxy, "-m", "socket", "-j", divert, "-m", "udp", "-p", "udp"]]
        else []
      let nsCmds : List Cmd :=
        (nslist.filter (fun i => i.1 == family)).flatMap (fun i =>
          [["-A", mark, "-j", "MARK", "--set-mark", "1", "--dest", i.2 ++ "/32",
            "--src", env.myip ++ "/32", "-m", "udp", "-p", "udp", "--dport", "15353"],
           ["-A", tproxy, "-j", "TPROXY", "--tproxy-mark", "0x1/0x1", "--dest", i.2 ++ "/32",
            "--src", env.myip ++ "/32", "-m", "udp", "-p", "udp", "--dport", "15353",
            "--on-port", toString dnsport]])
      let subnetCmds : List Cmd := (sortedSubnets subnets).flatMap (subnetRules port udp)
      (restoreCmds ++ chainCmds ++ [entry] ++ fixedCmds ++ udpCmds ++ nsCmds ++ subnetCmds,
       none, lb)
    else
      (restoreCmds ++ chainCmds, some .lockFailed, env.lbEvery)
  else
    ([], some (.badFamily family), env.lbEvery)

lemma htons_unpackH_net (P : Nat) (hP : P < 65536) :
    htons (P / 256 + 256 * (P % 256)) = P := by
  unfold htons
  omega

lemma take_append_of_length {A rest : List Nat} {n : Nat} (h : A.length = n) :
    (A ++ rest).take n = A := by
  subst h
  exact List.take_left A rest

/-- C2: an IPv4 ancillary record encoding family=IPv4, a network-order port
`P` at offset 2 and a 4-byte address `A4` at offset 4 decodes to exactly
`(A4, P)`; an IPv6 record encoding family=IPv6, port `P` and a 16-byte
address `A16` at offset 8 decodes to exactly `(A16, P)`. -/
theorem recv_udp_origdst_ipv4_ipv6 (P src bufsize r0 r1 r2 r3 : Nat)
    (A4 rest4 A16 rest16 payload : List Nat)
    (hP : P < 65536) (h4 : A4.length = 4) (h16 : A16.length = 16) :
    recv_udp (some .python)
        ⟨payload, [⟨SOL_IP, IP_ORIGDSTADDR, 2 :: 0 :: P / 256 :: P % 256 :: (A4 ++ rest4)⟩], src⟩
        bufsize
      = .ok (src, some (A4, P), payload.take 4096) ∧
    recv_udp (some .python)
        ⟨payload,
         [⟨SOL_IPV6, IPV6_ORIGDSTADDR,
           10 :: 0 :: P / 256 :: P % 256 :: r0 :: r1 :: r2 :: r3 :: (A16 ++ rest16)⟩], src⟩
        bufsize
      = .ok (src, some (A16, P), payload.take 4096) := by
  have hport := htons_unpackH_net P hP
  constructor
  · simp [recv_udp, decodeOrigDst, SOL_IP, IP_ORIGDSTADDR, SOL_IPV6, IPV6_ORIGDSTADDR,
      AF_INET, unpackH, hport, take_append_of_length h4]
  · simp [recv_udp, decodeOrigDst, SOL_IP, IP_ORIGDSTADDR, SOL_IPV6, IPV6_ORIGDSTADDR,
      AF_INET, AF_INET6, unpackH, hport, take_append_of_length h16]

/-- Witness for `recv_udp_origdst_ipv4_ipv6` at port 8080, IPv4 address
10.1.2.3 and a concrete 16-byte IPv6 address. -/
theorem recv_udp_origdst_ipv4_ipv6_witness :
    recv_udp (some .python)
        ⟨[1, 2], [⟨SOL_IP, IP_ORIGDSTADDR, 2 :: 0 :: 8080 / 256 :: 8080 % 256 :: ([10, 1, 2, 3] ++ [0])⟩], 7⟩
        99
      = .ok (7, some ([10, 1, 2, 3], 8080), [1, 2]) ∧
    recv_udp (some .python)
        ⟨[1, 2],
         [⟨SOL_IPV6, IPV6_ORIGDSTADDR,
           10 :: 0 :: 8080 / 256 :: 8080 % 256 :: 0 :: 0 :: 0 :: 0 ::
             ([32, 1, 13, 184, 0, 0, 0, 0, 0, 0, 0, 0, 0, 0, 0, 1] ++ [])⟩], 7⟩
        99
      = .ok (7, some ([32, 1, 13, 184, 0, 0, 0, 0, 0, 0, 0, 0, 0, 0, 0, 1], 8080), [1, 2]) := by
  exact recv_udp_origdst_ipv4_ipv6 8080 7 99 0 0 0 0
    [10, 1, 2, 3] [0] [32, 1, 13, 184, 0, 0, 0, 0, 0, 0, 0, 0, 0, 0, 0, 1] [] [1, 2]
    (by decide) (by decide) (by decide)

/-- C7: an original-destination record at the IP level whose embedded
family `f4` is anything other than IPv4 (including IPv6), or at the IPv6
level whose embedded family `f6` is anything other than IPv6 (including
IPv4), makes UDP destination decoding fail with the unsupported-family
error carrying exactly that family value. -/
theorem recv_udp_unexpected_family (f4 f6 src bufsize : Nat) (d payload : List Nat)
    (_h4b : f4 < 65536) (_h6b : f6 < 65536)
    (h4 : f4 ≠ AF_INET) (h6 : f6 ≠ AF_INET6) :
    recv_udp (some .python)
        ⟨payload, [⟨SOL_IP, IP_ORIGDSTADDR, f4 % 256 :: f4 / 256 :: d⟩], src⟩ bufsize
      = .error f4 ∧
    recv_udp (some .python)
        ⟨payload, [⟨SOL_IPV6, IPV6_ORIGDSTADDR, f6 % 256 :: f6 / 256 :: d⟩], src⟩ bufsize
      = .error f6 := by
  have hfam4 : f4 % 256 + 256 * (f4 / 256) = f4 := by omega
  have hfam6 : f6 % 256 + 256 * (f6 / 256) = f6 := by omega
  constructor
  · simp [recv_udp, decodeOrigDst, SOL_IP, IP_ORIGDSTADDR, SOL_IPV6, IPV6_ORIGDSTADDR,
      unpackH, hfam4, h4]
  · simp [recv_udp, decodeOrigDst, SOL_IP, IP_ORIGDSTADDR, SOL_IPV6, IPV6_ORIGDSTADDR,
      unpackH, hfam6, h6]

/-- Witness for `recv_udp_unexpected_family` at the cross cases: an
IP-level record embedding family 10 (IPv6) and an IPv6-level record
embedding family 2 (IPv4). -/
theorem recv_udp_unexpected_family_witness :
    recv_udp (some .python)
        ⟨[9], [⟨SOL_IP, IP_ORIGDSTADDR, 10 % 256 :: 10 / 256 :: [31, 144, 10, 1, 2, 3]⟩], 4⟩ 11
      = .error 10 ∧
    recv_udp (some .python)
        ⟨[9], [⟨SOL_IPV6, IPV6_ORIGDSTADDR, 2 % 256 :: 2 / 256 :: [31, 144, 10, 1, 2, 3]⟩], 4⟩ 11
      = .error 2 :=
  recv_udp_unexpected_family 10 2 4 11 [31, 144, 10, 1, 2, 3] [9]
    (by decide) (by decide) (by decide) (by decide)

/-- Scanning loop result when no record carries an original-destination
level/type pair. -/
lemma decodeOrigDst_no_match (anc : List CMsg)
    (h : ∀ c ∈ anc,
      ¬(c.level = SOL_IP ∧ c.type = IP_ORIGDSTADDR) ∧
      ¬(c.level = SOL_IPV6 ∧ c.type = IPV6_ORIGDSTADDR)) :
    decodeOrigDst anc = .ok none := by
  induction anc with
  | nil => rfl
  | cons c rest ih =>
      have hc := h c (List.mem_cons_self c rest)
      have hrest : ∀ x ∈ rest, ¬(x.level = SOL_IP ∧ x.type = IP_ORIGDSTADDR) ∧
          ¬(x.level = SOL_IPV6 ∧ x.type = IPV6_ORIGDSTADDR) :=
        fun x hx => h x (List.mem_cons_of_mem c hx)
      simp [decodeOrigDst, hc.1, hc.2, ih hrest]

/-- C8: an ancillary buffer with no recognized original-destination record
decodes to destination-absent without error, and the per-packet receive
wrapper then returns no result rather than failing. -/
theorem recv_udp_no_origdst_record (strategy : Option RecvStrategy) (l : Listener) (bufsize : Nat)
    (h : ∀ c ∈ l.ancdata,
      ¬(c.level = SOL_IP ∧ c.type = IP_ORIGDSTADDR) ∧
      ¬(c.level = SOL_IPV6 ∧ c.type = IPV6_ORIGDSTADDR)) :
    decodeOrigDst l.ancdata = .ok none ∧
    Method.recv_udp strategy l bufsize = .ok none := by
  have hdec : decodeOrigDst l.ancdata = .ok none := decodeOrigDst_no_match l.ancdata h
  refine ⟨hdec, ?_⟩
  cases strategy with
  | none => rfl
  | some s => cases s <;> simp [Method.recv_udp, recv_udp, hdec]

/-- Witness for `recv_udp_no_origdst_record` on a buffer holding one
unrelated ancillary record. -/
theorem recv_udp_no_origdst_record_witness :
    decodeOrigDst (Listener.ancdata ⟨[9], [⟨1, 99, [1, 2, 3, 4]⟩], 5⟩) = .ok none ∧
    Method.recv_udp (some .python) ⟨[9], [⟨1, 99, [1, 2, 3, 4]⟩], 5⟩ 3 = .ok none :=
  recv_udp_no_origdst_record (some .python) ⟨[9], [⟨1, 99, [1, 2, 3, 4]⟩], 5⟩ 3 (by decide)

/-- C9: the capability descriptor always has equal `udp` and `dns` flags,
true exactly when the startup probe found a `recvmsg` primitive, and its
`ipv6` flag is always true. -/
theorem get_supported_features_invariant (recvmsg : Option RecvStrategy) (base : Features) :
    (Method.get_supported_features recvmsg base).udp
        = (Method.get_supported_features recvmsg base).dns ∧
    ((Method.get_supported_features recvmsg base).udp = true ↔ recvmsg.isSome = true) ∧
    (Method.get_supported_features recvmsg base).ipv6 = true := by
  cases recvmsg <;> simp [Method.get_supported_features]

/-- C10: under the native (`python`) strategy the receive requests a fixed
4096 bytes and the result does not depend on the caller's `bufsize`,
while the `socket_ext` and no-ancillary strategies read `bufsize`
bytes. -/
theorem recv_udp_bufsize_strategy (l : Listener) (bufsize bufsize2 : Nat) :
    recv_udp (some .python) l bufsize = recv_udp (some .python) l bufsize2 ∧
    recv_udp (some .python) l bufsize
      = Except.map (fun dstip => (l.src, dstip, l.payload.take 4096)) (decodeOrigDst l.ancdata) ∧
    recv_udp (some .socket_ext) l bufsize
      = Except.map (fun dstip => (l.src, dstip, l.payload.take bufsize)) (decodeOrigDst l.ancdata) ∧
    recv_udp none l bufsize = .ok (l.src, none, l.payload.take bufsize) := by
  refine ⟨rfl, ?_, ?_, rfl⟩ <;>
    cases hdec : decodeOrigDst l.ancdata <;> simp [recv_udp, hdec, Except.map]

/-- Closed form of the rule-table state left by the teardown sequence. -/
lemma restoreCore_state (lbEvery : Option Nat) (port : Nat) (s : RuleTable) :
    (restoreCore lbEvery port s).1 =
      ⟨false,
       (match lbEvery with | none => false | some _ => s.preroutingPlain),
       (match lbEvery with
        | none => s.preroutingStat
        | some n => if s.preroutingStat = some n then none else s.preroutingStat),
       false, false, false⟩ := by
  rcases s with ⟨o, p, st, m, t, d⟩
  cases lbEvery with
  | none =>
      cases o <;> cases p <;> cases st <;> cases m <;> cases t <;> cases d <;>
        simp [restoreCore]
  | some n =>
      cases o <;> cases p <;> rcases st with _ | k <;> cases m <;> cases t <;> cases d <;>
        simp [restoreCore]

/-- C6: teardown is idempotent.  On a never-set-up table it issues no
command and raises no error; on any table it never errs; and running it a
second time leaves the rule-table state it produced unchanged. -/
theorem restore_firewall_idempotent (family : Nat) (lbEvery : Option Nat) (port : Nat)
    (s : RuleTable) (hf : family = AF_INET ∨ family = AF_INET6) :
    restore_firewall family lbEvery port cleanTable = .ok (cleanTable, []) ∧
    restore_firewall family lbEvery port s = .ok (restoreCore lbEvery port s) ∧
    (restoreCore lbEvery port (restoreCore lbEvery port s).1).1 = (restoreCore lbEvery port s).1 := by
  have hok : ∀ u, restore_firewall family lbEvery port u = .ok (restoreCore lbEvery port u) := by
    intro u
    unfold restore_firewall
    rw [if_pos hf]
  refine ⟨?_, hok s, ?_⟩
  · rw [hok cleanTable]
    cases lbEvery <;> simp [restoreCore, cleanTable]
  · rw [restoreCore_state, restoreCore_state]
    cases lbEvery with
    | none => rfl
    | some n =>
        rcases hst : s.preroutingStat with _ | k
        · simp
        · by_cases hk : k = n <;> simp [hk]

/-- Witness for `restore_firewall_idempotent` on a fully populated table
with a load-balanced entry rule. -/
theorem restore_firewall_idempotent_witness :
    restore_firewall AF_INET (some 3) 1080 cleanTable = .ok (cleanTable, []) ∧
    restore_firewall AF_INET (some 3) 1080 ⟨true, true, some 3, true, true, true⟩
      = .ok (restoreCore (some 3) 1080 ⟨true, true, some 3, true, true, true⟩) ∧
    (restoreCore (some 3) 1080
        (restoreCore (some 3) 1080 ⟨true, true, some 3, true, true, true⟩).1).1
      = (restoreCore (some 3) 1080 ⟨true, true, some 3, true, true, true⟩).1 :=
  restore_firewall_idempotent AF_INET (some 3) 1080 ⟨true, true, some 3, true, true, true⟩
    (Or.inl rfl)

/-- Command classifier: does an `ipt` argument vector insert or append a
rule (as opposed to deleting, flushing, or creating/deleting a chain)? -/
def isInsertCmd (c : Cmd) : Bool :=
  c.headD "" == "-I" || c.headD "" == "-A"

/-- Teardown only deletes rules and flushes/deletes chains: none of its
commands inserts or appends a rule. -/
lemma restoreCore_no_insert (lbEvery : Option Nat) (port : Nat) (s : RuleTable) :
    ((restoreCore lbEvery port s).2).filter isInsertCmd = [] := by
  rcases s with ⟨o, p, st, m, t, d⟩
  cases lbEvery <;>
    cases o <;> cases p <;> rcases st with _ | k <;> cases m <;> cases t <;> cases d <;>
      rfl

/-- The environment of the C1 counterexample: `REDIS_HOST` unset while
everything else is in order. -/
def envC1 : SetupEnv :=
  ⟨cleanTable, none, none, some "6379", true, 0, "10.0.0.5"⟩

/-- C1 counterexample: with `REDIS_HOST` absent, `setup_firewall` does
abort with the missing-parameter `Fatal`, but only after issuing the six
chain create/flush mutations — the emitted command list is not empty, so
the failure does not precede every rule-table mutation as the claim
states. -/
theorem setup_redis_missing_counterexample :
    setup_firewall envC1 1080 15353 [] AF_INET [] true
      = ([["-N", "sshuttle-m-1080"], ["-F", "sshuttle-m-1080"],
          ["-N", "sshuttle-d-1080"], ["-F", "sshuttle-d-1080"],
          ["-N", "sshuttle-t-1080"], ["-F", "sshuttle-t-1080"]],
         some SetupError.redisMissing, none) ∧
    (setup_firewall envC1 1080 15353 [] AF_INET [] true).1 ≠ [] := by
  constructor
  · rfl
  · intro h
    simp [setup_firewall, envC1, restoreCore, cleanTable] at h

/-- C1 amended: when either Redis connection parameter is absent,
`setup_firewall` fails with the missing-parameter `Fatal` after the
teardown and the six chain create/flush commands, and before any rule is
inserted or appended (in particular before the entry-point insertion and
every per-subnet rule). -/
theorem setup_redis_missing_amended (env : SetupEnv) (port dnsport : Nat)
    (nslist : List (Nat × String)) (family : Nat) (subnets : List Subnet) (udp : Bool)
    (hf : family = AF_INET ∨ family = AF_INET6)
    (hr : env.redisHost = none ∨ env.redisPort = none) :
    setup_firewall env port dnsport nslist family subnets udp
      = ((restoreCore env.lbEvery port env.table).2 ++
         [["-N", mark_chain port], ["-F", mark_chain port], ["-N", divert_chain port],
          ["-F", divert_chain port], ["-N", tproxy_chain port], ["-F", tproxy_chain port]],
         some SetupError.redisMissing, env.lbEvery) ∧
    ((setup_firewall env port dnsport nslist family subnets udp).1).filter isInsertCmd = [] := by
  have hcond : env.redisHost.isNone = true ∨ env.redisPort.isNone = true := by
    rcases hr with h | h <;> [left; right] <;> simp [h]
  have hmain : setup_firewall env port dnsport nslist family subnets udp
      = ((restoreCore env.lbEvery port env.table).2 ++
         [["-N", mark_chain port], ["-F", mark_chain port], ["-N", divert_chain port],
          ["-F", divert_chain port], ["-N", tproxy_chain port], ["-F", tproxy_chain port]],
         some SetupError.redisMissing, env.lbEvery) := by
    simp only [setup_firewall]
    rw [if_pos hf, if_pos hcond]
  refine ⟨hmain, ?_⟩
  rw [hmain]
  simp only [List.filter_append, restoreCore_no_insert]
  rfl

/-- Witness for `setup_redis_missing_amended` with `REDIS_PORT` absent and
a populated prior rule table. -/
theorem setup_redis_missing_amended_witness :
    setup_firewall ⟨⟨true, true, none, true, true, true⟩, none, some "redis.local", none, true, 0, "10.0.0.5"⟩
        1080 15353 [] AF_INET [] true
      = ((restoreCore none 1080 ⟨true, true, none, true, true, true⟩).2 ++
         [["-N", mark_chain 1080], ["-F", mark_chain 1080], ["-N", divert_chain 1080],
          ["-F", divert_chain 1080], ["-N", tproxy_chain 1080], ["-F", tproxy_chain 1080]],
         some SetupError.redisMissing, none) ∧
    ((setup_firewall ⟨⟨true, true, none, true, true, true⟩, none, some "redis.local", none, true, 0, "10.0.0.5"⟩
        1080 15353 [] AF_INET [] true).1).filter isInsertCmd = [] :=
  setup_redis_missing_amended
    ⟨⟨true, true, none, true, true, true⟩, none, some "redis.local", none, true, 0, "10.0.0.5"⟩
    1080 15353 [] AF_INET [] true (Or.inl rfl) (Or.inr rfl)

/-- Success path of `setup_firewall`: with a supported family, both Redis
parameters present and the lock acquired, the call aborts nowhere and its
trace is the teardown commands, the chain setup, the locked entry-point
insertion, the fixed rules, the optional UDP socket rule, the nameserver
rules, and the per-subnet rules over the subnets sorted by descending
weight. -/
lemma setup_firewall_success (env : SetupEnv) (port dnsport : Nat)
    (nslist : List (Nat × String)) (family : Nat) (subnets : List Subnet) (udp : Bool)
    (hf : family = AF_INET ∨ family = AF_INET6)
    (hh : env.redisHost ≠ none) (hp : env.redisPort ≠ none)
    (hl : env.lockAcquired = true) :
    setup_firewall env port dnsport nslist family subnets udp
      = ((restoreCore env.lbEvery port env.table).2 ++
         ([["-N", mark_chain port], ["-F", mark_chain port], ["-N", divert_chain port],
           ["-F", divert_chain port], ["-N", tproxy_chain port], ["-F", tproxy_chain port]] ++
          ([if env.ruleCount = 0 then
              ["-I", "PREROUTING", "1", "-j", tproxy_chain port]
            else
              ["-I", "PREROUTING", "1", "-m", "statistic", "--mode", "nth",
               "--every", toString (env.ruleCount + 1), "--packet", "0", "-j", tproxy_chain port]] ++
           ([["-I", "OUTPUT", "1", "-j", mark_chain port],
             ["-A", divert_chain port, "-j", "MARK", "--set-mark", "1"],
             ["-A", divert_chain port, "-j", "ACCEPT"],
             ["-A", tproxy_chain port, "-j", "RETURN", "--src", "127.0.0.1/32", "--dest", "127.0.0.1/32"],
             ["-A", tproxy_chain port, "-m", "socket", "-j", divert_chain port, "-m", "tcp", "-p", "tcp"],
             ["-A", mark_chain port, "-j", "RETURN", "--src", env.myip ++ "/32", "!", "--dest", "1.0.0.0"],
             ["-A", mark_chain port, "-j", "RETURN", "--dest", env.myip ++ "/32"]] ++
            ((if udp then
                [["-A", tproxy_chain port, "-m", "socket", "-j", divert_chain port, "-m", "udp", "-p", "udp"]]
              else []) ++
             (((nslist.filter (fun i => i.1 == family)).flatMap (fun i =>
                 [["-A", mark_chain port, "-j", "MARK", "--set-mark", "1", "--dest", i.2 ++ "/32",
                   "--src", env.myip ++ "/32", "-m", "udp", "-p", "udp", "--dport", "15353"],
                  ["-A", tproxy_chain port, "-j", "TPROXY", "--tproxy-mark", "0x1/0x1", "--dest", i.2 ++ "/32",
                   "--src", env.myip ++ "/32", "-m", "udp", "-p", "udp", "--dport", "15353",
                   "--on-port", toString dnsport]])) ++
              (sortedSubnets subnets).flatMap (subnetRules port udp)))))),
         none,
         if env.ruleCount = 0 then env.lbEvery else some (env.ruleCount + 1)) := by
  have hcond : ¬(env.redisHost.isNone = true ∨ env.redisPort.isNone = true) := by
    rintro (h | h)
    · exact hh (Option.isNone_iff_eq_none.mp h)
    · exact hp (Option.isNone_iff_eq_none.mp h)
  simp only [setup_firewall]
  rw [if_pos hf, if_neg hcond, if_pos hl]
  simp only [List.append_assoc]

/-- C3: on the success path, the command issued immediately after the six
chain create/flush commands is the entry-point insertion at position 1 of
`PREROUTING`: an unconditional jump to the tproxy chain when the observed
rule count is zero, and otherwise the statistic-match variant (mode nth,
packet 0) with `--every` one greater than the observed count. -/
theorem setup_entry_point_insertion (env : SetupEnv) (port dnsport : Nat)
    (nslist : List (Nat × String)) (family : Nat) (subnets : List Subnet) (udp : Bool)
    (hf : family = AF_INET ∨ family = AF_INET6)
    (hh : env.redisHost ≠ none) (hp : env.redisPort ≠ none)
    (hl : env.lockAcquired = true) :
    (setup_firewall env port dnsport nslist family subnets udp).2.1 = none ∧
    ((setup_firewall env port dnsport nslist family subnets udp).1).take
        ((restoreCore env.lbEvery port env.table).2.length + 6)
      = (restoreCore env.lbEvery port env.table).2 ++
        [["-N", mark_chain port], ["-F", mark_chain port], ["-N", divert_chain port],
         ["-F", divert_chain port], ["-N", tproxy_chain port], ["-F", tproxy_chain port]] ∧
    ((setup_firewall env port dnsport nslist family subnets udp).1).getD
        ((restoreCore env.lbEvery port env.table).2.length + 6) []
      = (if env.ruleCount = 0 then
           ["-I", "PREROUTING", "1", "-j", tproxy_chain port]
         else
           ["-I", "PREROUTING", "1", "-m", "statistic", "--mode", "nth",
            "--every", toString (env.ruleCount + 1), "--packet", "0", "-j", tproxy_chain port]) := by
  have hs := setup_firewall_success env port dnsport nslist family subnets udp hf hh hp hl
  refine ⟨by rw [hs], ?_, ?_⟩
  · rw [hs]
    show ((restoreCore env.lbEvery port env.table).2 ++ _).take _ = _
    rw [List.take_append 6]
    simp
  · rw [hs]
    show ((restoreCore env.lbEvery port env.table).2 ++ _).getD _ [] = _
    rw [List.getD_append_right _ _ _ _ (Nat.le_add_right _ _), Nat.add_sub_cancel_left]
    simp

/-- The environment of the C3 witness: two rules already occupy
`PREROUTING`. -/
def envC3 : SetupEnv :=
  ⟨cleanTable, none, some "redis.local", some "6379", true, 2, "10.0.0.5"⟩

/-- Witness for `setup_entry_point_insertion` with an observed rule count
of 2, exercising the statistic-match branch with `--every 3`. -/
theorem setup_entry_point_insertion_witness :
    (setup_firewall envC3 1080 15353 [(2, "8.8.8.8")] AF_INET [] true).2.1 = none ∧
    ((setup_firewall envC3 1080 15353 [(2, "8.8.8.8")] AF_INET [] true).1).take
        ((restoreCore envC3.lbEvery 1080 envC3.table).2.length + 6)
      = (restoreCore envC3.lbEvery 1080 envC3.table).2 ++
        [["-N", mark_chain 1080], ["-F", mark_chain 1080], ["-N", divert_chain 1080],
         ["-F", divert_chain 1080], ["-N", tproxy_chain 1080], ["-F", tproxy_chain 1080]] ∧
    ((setup_firewall envC3 1080 15353 [(2, "8.8.8.8")] AF_INET [] true).1).getD
        ((restoreCore envC3.lbEvery 1080 envC3.table).2.length + 6) []
      = (if envC3.ruleCount = 0 then
           ["-I", "PREROUTING", "1", "-j", tproxy_chain 1080]
         else
           ["-I", "PREROUTING", "1", "-m", "statistic", "--mode", "nth",
            "--every", toString (envC3.ruleCount + 1), "--packet", "0", "-j", tproxy_chain 1080]) :=
  setup_entry_point_insertion envC3 1080 15353 [(2, "8.8.8.8")] AF_INET [] true
    (Or.inl rfl) (by simp [envC3]) (by simp [envC3]) rfl

/-- The failing input of C4: an included IPv4 subnet carrying the port
range 5000-6000, with UDP enabled. -/
def subC4 : Subnet := ⟨2, 24, false, "10.1.2.0", 5000, 6000⟩

/-- C4 evaluated at the failing input: the TCP mark rule, the TCP TPROXY
rule and the UDP TPROXY rule each carry `--dport 5000:6000`, but the UDP
mark rule is emitted as a fixed `-m udp -p udp` match with no port-range
restriction at all, contradicting the claim that both rules of each
protocol match only the given destination port range. -/
theorem udp_mark_rule_missing_port_range :
    subnetRules 1080 true subC4
      = [["-A", "sshuttle-m-1080", "-j", "MARK", "--set-mark", "1", "--dest", "10.1.2.0/24",
          "-m", "tcp", "-p", "tcp", "--dport", "5000:6000"],
         ["-A", "sshuttle-t-1080", "-j", "TPROXY", "--tproxy-mark", "0x1/0x1", "--dest", "10.1.2.0/24",
          "-m", "tcp", "-p", "tcp", "--dport", "5000:6000", "--on-port", "1080"],
         ["-A", "sshuttle-m-1080", "-j", "MARK", "--set-mark", "1", "--dest", "10.1.2.0/24",
          "-m", "udp", "-p", "udp"],
         ["-A", "sshuttle-t-1080", "-j", "TPROXY", "--tproxy-mark", "0x1/0x1", "--dest", "10.1.2.0/24",
          "-m", "udp", "-p", "udp", "--dport", "5000:6000", "--on-port", "1080"]] ∧
    "--dport" ∉ ["-A", "sshuttle-m-1080", "-j", "MARK", "--set-mark", "1", "--dest", "10.1.2.0/24",
                 "-m", "udp", "-p", "udp"] := by
  exact ⟨rfl, by decide⟩

/-- C5: on the success path the per-subnet rules form the final segment of
the trace, emitted by iterating the subnets sorted by descending weight;
in that order an excluded /24 subnet `A` never sits after an included /8
subnet `B`, so all of `A`'s rules are issued before any of `B`'s. -/
theorem setup_subnet_rules_sorted (env : SetupEnv) (port dnsport : Nat)
    (nslist : List (Nat × String)) (family : Nat) (subnets : List Subnet) (udp : Bool)
    (A B : Subnet) (u v : List Subnet)
    (hf : family = AF_INET ∨ family = AF_INET6)
    (hh : env.redisHost ≠ none) (hp : env.redisPort ≠ none)
    (hl : env.lockAcquired = true)
    (hA : A.sexclude = true) (_hA24 : A.swidth = 24)
    (hB : B.sexclude = false) (_hB8 : B.swidth = 8)
    (hsplit : sortedSubnets subnets = u ++ B :: v) :
    List.IsSuffix ((sortedSubnets subnets).flatMap (subnetRules port udp))
        (setup_firewall env port dnsport nslist family subnets udp).1 ∧
    List.Sorted weight_ge (sortedSubnets subnets) ∧
    A ≠ B ∧ A ∉ v := by
  have hs := setup_firewall_success env port dnsport nslist family subnets udp hf hh hp hl
  have hsorted : List.Sorted weight_ge (sortedSubnets subnets) :=
    List.sorted_insertionSort weight_ge subnets
  refine ⟨?_, hsorted, ?_, ?_⟩
  · refine ⟨(restoreCore env.lbEvery port env.table).2 ++
      ([["-N", mark_chain port], ["-F", mark_chain port], ["-N", divert_chain port],
        ["-F", divert_chain port], ["-N", tproxy_chain port], ["-F", tproxy_chain port]] ++
       ([if env.ruleCount = 0 then
           ["-I", "PREROUTING", "1", "-j", tproxy_chain port]
         else
           ["-I", "PREROUTING", "1", "-m", "statistic", "--mode", "nth",
            "--every", toString (env.ruleCount + 1), "--packet", "0", "-j", tproxy_chain port]] ++
        ([["-I", "OUTPUT", "1", "-j", mark_chain port],
          ["-A", divert_chain port, "-j", "MARK", "--set-mark", "1"],
          ["-A", divert_chain port, "-j", "ACCEPT"],
          ["-A", tproxy_chain port, "-j", "RETURN", "--src", "127.0.0.1/32", "--dest", "127.0.0.1/32"],
          ["-A", tproxy_chain port, "-m", "socket", "-j", divert_chain port, "-m", "tcp", "-p", "tcp"],
          ["-A", mark_chain port, "-j", "RETURN", "--src", env.myip ++ "/32", "!", "--dest", "1.0.0.0"],
          ["-A", mark_chain port, "-j", "RETURN", "--dest", env.myip ++ "/32"]] ++
         ((if udp then
             [["-A", tproxy_chain port, "-m", "socket", "-j", divert_chain port, "-m", "udp", "-p", "udp"]]
           else []) ++
          ((nslist.filter (fun i => i.1 == family)).flatMap (fun i =>
             [["-A", mark_chain port, "-j", "MARK", "--set-mark", "1", "--dest", i.2 ++ "/32",
               "--src", env.myip ++ "/32", "-m", "udp", "-p", "udp", "--dport", "15353"],
              ["-A", tproxy_chain port, "-j", "TPROXY", "--tproxy-mark", "0x1/0x1", "--dest", i.2 ++ "/32",
               "--src", env.myip ++ "/32", "-m", "udp", "-p", "udp", "--dport", "15353",
               "--on-port", toString dnsport]])))))), ?_⟩
    rw [hs]
    simp [List.append_assoc]
  · intro h
    rw [h, hB] at hA
    exact Bool.noConfusion hA
  · intro hmem
    have hsort2 : List.Sorted weight_ge (u ++ B :: v) := hsplit ▸ hsorted
    have h1 : List.Pairwise weight_ge (B :: v) := (List.pairwise_append.mp hsort2).2.1
    have h2 : weight_ge B A := (List.pairwise_cons.mp h1).1 A hmem
    rw [weight_ge, subnet_weight, subnet_weight, hA, hB] at h2
    simp at h2

/-- The excluded narrow subnet of the C5 witness. -/
def subA0 : Subnet := ⟨2, 24, true, "10.1.2.0", 0, 0⟩

/-- The included broad subnet of the C5 witness. -/
def subB0 : Subnet := ⟨2, 8, false, "10.0.0.0", 0, 0⟩

/-- The environment of the C5 witness. -/
def envC5 : SetupEnv :=
  ⟨cleanTable, none, some "redis.local", some "6379", true, 0, "10.0.0.5"⟩

/-- Witness for `setup_subnet_rules_sorted`: the input listing the broad
included subnet first is emitted with the excluded /24 subnet's rules
first. -/
theorem setup_subnet_rules_sorted_witness :
    List.IsSuffix ((sortedSubnets [subB0, subA0]).flatMap (subnetRules 1080 true))
        (setup_firewall envC5 1080 15353 [] AF_INET [subB0, subA0] true).1 ∧
    List.Sorted weight_ge (sortedSubnets [subB0, subA0]) ∧
    subA0 ≠ subB0 ∧ subA0 ∉ ([] : List Subnet) :=
  setup_subnet_rules_sorted envC5 1080 15353 [] AF_INET [subB0, subA0] true
    subA0 subB0 [subA0] []
    (Or.inl rfl) (by simp [envC5]) (by simp [envC5]) rfl rfl rfl rfl rfl (by decide)

end Sshuttle
